import Mathlib

/-!
Verification of the Adam setup-assistant backend (graph_system / agents) against
its natural-language specification.  The Python sources are shallowly embedded:
pandas cell values become `Val`, rows become association lists, DataFrames become
`Df`, and every boundary call (LLM completion, GCS upload, pandas rendering)
becomes an explicit function parameter.  Each embedded definition mirrors one
Python function and keeps its name.
-/

namespace AdamSetup

/-- An exact fraction `n / d` (`d` positive by construction in this file).
Python floats are modelled by these exact values; all numeric literals in the
claims are decimal, so no rounding behaviour is lost.  Comparisons are by
cross-multiplication, so no gcd normalisation is needed and concrete instances
reduce inside the kernel. -/
structure Frac where
  n : Int
  d : Nat
deriving Repr, DecidableEq

/-- Embed an integer. -/
def Frac.ofInt (i : Int) : Frac := ⟨i, 1⟩

/-- Python `==` on numbers. -/
def Frac.beq (a b : Frac) : Bool := a.n * (b.d : Int) == b.n * (a.d : Int)

/-- Python `<` on numbers. -/
def Frac.blt (a b : Frac) : Bool := a.n * (b.d : Int) < b.n * (a.d : Int)

/-- Python `>` on numbers. -/
def Frac.bgt (a b : Frac) : Bool := Frac.blt b a

/-- A pandas cell value: missing (`NaN`/`None`), text, numeric, or boolean.
Floats are modelled as exact fractions. -/
inductive Val where
  | na : Val
  | str : String → Val
  | num : Frac → Val
  | bool : Bool → Val
deriving Repr, DecidableEq

/-- A table row, as pandas exposes it to the check predicates: an association
list from column name to cell value (`pd.Series`). -/
abbrev Row := List (String × Val)

/-- `row.get(key, default)` on a pandas Series. -/
def Row.getCell (r : Row) (key : String) (default : Val) : Val :=
  match r.find? (fun p => p.1 == key) with
  | some p => p.2
  | none => default

/-- Whether a row has a column of the given name. -/
def hasCol (r : Row) (key : String) : Bool :=
  r.any (fun p => p.1 == key)

/-- Pandas column assignment `df[key] = v` restricted to one row: replaces the
cell in place when the column exists, otherwise appends it as the last column. -/
def setCol (r : Row) (key : String) (v : Val) : Row :=
  if hasCol r key then r.map (fun p => if p.1 == key then (key, v) else p)
  else r ++ [(key, v)]

/-- Pandas `df.drop(key, axis=1)` restricted to one row. -/
def dropCol (r : Row) (key : String) : Row :=
  r.filter (fun p => !(p.1 == key))

/-- Digits of a decimal literal folded into a natural number. -/
def digitsToNat (l : List Char) : Nat :=
  l.foldl (fun a c => a * 10 + (c.toNat - 48)) 0

/-- Python `float(s)` on plain decimal literals: optional sign, integer part,
optional fractional part (surrounding whitespace stripped).  Returns `none`
when the text is not such a literal, modelling the `ValueError` branch. -/
def pyFloat? (s : String) : Option Frac :=
  let cs := s.trim.toList
  let signed : Int × List Char :=
    match cs with
    | '-' :: rest => (-1, rest)
    | '+' :: rest => (1, rest)
    | _ => (1, cs)
  let sign := signed.1
  let body := signed.2
  let intPart := body.takeWhile Char.isDigit
  let rest := body.dropWhile Char.isDigit
  match rest with
  | [] => if intPart.isEmpty then none else some ⟨sign * digitsToNat intPart, 1⟩
  | '.' :: frac =>
      if frac.all Char.isDigit && !(intPart.isEmpty && frac.isEmpty) then
        some ⟨sign * (digitsToNat intPart * 10 ^ frac.length + digitsToNat frac),
              10 ^ frac.length⟩
      else none
  | _ => none

/-- Smallest number of decimal places (up to 12) rendering the fraction
exactly, mirroring how Python prints the simple float literals that occur in
this code base. -/
def decDigits (x : Frac) : Option Nat :=
  (List.range 13).find? (fun k => x.n * (10 : Int) ^ k % (x.d : Int) == 0)

/-- Python `str(float)` for decimal-representable values: `7.5 ↦ "7.5"`,
`5 ↦ "5.0"`. -/
def fmtNum (x : Frac) : String :=
  match decDigits x with
  | some k =>
      let scaled : Int := x.n * (10 : Int) ^ k / (x.d : Int)
      let sign := if scaled < 0 then "-" else ""
      let ds := (toString scaled.natAbs).toList
      let ds := if ds.length < k + 1 then List.replicate (k + 1 - ds.length) '0' ++ ds else ds
      let ip := ds.take (ds.length - k)
      let fp := ds.drop (ds.length - k)
      sign ++ String.mk ip ++ "." ++ String.mk (if fp.isEmpty then ['0'] else fp)
  | none => toString x.n ++ "/" ++ toString x.d

/-- Python `str(...)` of a cell value, as it appears interpolated in messages. -/
def valText (v : Val) : String :=
  match v with
  | Val.na => "nan"
  | Val.str s => s
  | Val.num x => fmtNum x
  | Val.bool b => if b then "True" else "False"

/-- The numeric reading of a cell after the tool's string-to-float conversion:
numbers stand as themselves, strings go through `float(...)`, booleans compare
as 0/1 in Python, `NaN` has none. -/
def valNum? (v : Val) : Option Frac :=
  match v with
  | Val.num x => some x
  | Val.str s => pyFloat? s
  | Val.bool b => some (Frac.ofInt (if b then 1 else 0))
  | Val.na => none

/-- Substring test on the underlying character lists (structural, so concrete
instances evaluate by `decide`). -/
def charsContain (s sub : List Char) : Bool :=
  sub.isPrefixOf s ||
    (match s with
     | [] => false
     | _ :: t => charsContain t sub)

/-- `sub in s` for strings. -/
def strIncludes (s sub : String) : Bool :=
  charsContain s.toList sub.toList

/-! ## `check_cpm_capping` (agents/tools/io_anomaly_detector_tool.py) -/

/-- Shallow embedding of `check_cpm_capping`: flags an insertion-order row when
its KPI is CPM and the CPM cap is missing, invalid, zero, or above the agreed
ceiling.  The two context tables are unused by the source body and omitted. -/
def check_cpm_capping (r : Row) (default_cpm_cap : Frac) : Bool × String :=
  let kpi_type := Row.getCell r "Kpi Type" (Val.str "")
  let kpi_value := Row.getCell r "Kpi Value" Val.na
  if kpi_type ≠ Val.str "CPM" then (false, "")
  else if kpi_value = Val.na then
    (true, "IO Missing/Invalid CPM Cap: KPI is CPM but no CPM cap is set;")
  else
    match valNum? kpi_value with
    | none =>
        (true, "IO Missing/Invalid CPM Cap: CPM cap value '" ++ valText kpi_value ++ "' is invalid;")
    | some v =>
        if Frac.beq v (Frac.ofInt 0) then
          (true, "IO Missing/Invalid CPM Cap: KPI is CPM but CPM cap is set to 0 (no cap);")
        else if Frac.bgt v default_cpm_cap then
          (true, "IO Missing/Invalid CPM Cap: CPM cap (" ++ fmtNum v ++
            ") exceeds agreed ceiling (" ++ fmtNum default_cpm_cap ++ ");")
        else (false, "")

/-- The spec's abnormality condition for the CPM check, written from its words:
the KPI value is missing, non-numeric, zero, or exceeds the configured
ceiling. -/
def cpmValueBad (v : Val) (cap : Frac) : Bool :=
  v == Val.na ||
  (valNum? v).isNone ||
  (match valNum? v with
   | some x => Frac.beq x (Frac.ofInt 0) || Frac.bgt x cap
   | none => false)

/-- C8: the CPM-capping check returns not-abnormal whenever the KPI type is not
CPM; when it is CPM, the row is flagged exactly when the KPI value is missing,
non-numeric, zero, or above the configured ceiling; and on the spec's scenario
D row (`Kpi Type="CPM"`, `Kpi Value=7.5`, `default_cpm_cap=5.0`) it flags the
row with a message containing both values. -/
theorem check_cpm_capping_spec (r : Row) (cap : Frac) :
    (Row.getCell r "Kpi Type" (Val.str "") ≠ Val.str "CPM" →
      check_cpm_capping r cap = (false, "")) ∧
    (Row.getCell r "Kpi Type" (Val.str "") = Val.str "CPM" →
      (check_cpm_capping r cap).1 = cpmValueBad (Row.getCell r "Kpi Value" Val.na) cap) ∧
    (check_cpm_capping [("Kpi Type", Val.str "CPM"), ("Kpi Value", Val.num ⟨15, 2⟩)] ⟨5, 1⟩ =
        (true, "IO Missing/Invalid CPM Cap: CPM cap (7.5) exceeds agreed ceiling (5.0);") ∧
      strIncludes (check_cpm_capping [("Kpi Type", Val.str "CPM"),
        ("Kpi Value", Val.num ⟨15, 2⟩)] ⟨5, 1⟩).2 "7.5" = true ∧
      strIncludes (check_cpm_capping [("Kpi Type", Val.str "CPM"),
        ("Kpi Value", Val.num ⟨15, 2⟩)] ⟨5, 1⟩).2 "5.0" = true) := by
  refine ⟨?_, ?_, by decide, by decide, by decide⟩
  · intro h
    unfold check_cpm_capping
    rw [if_pos h]
  · intro h
    unfold check_cpm_capping cpmValueBad
    rw [h]
    rw [if_neg (by simp)]
    cases hkv : Row.getCell r "Kpi Value" Val.na with
    | na => simp
    | str s =>
        cases hps : pyFloat? s with
        | none => simp [valNum?, hps]
        | some x =>
            simp only [valNum?, hps]
            by_cases h0 : Frac.beq x (Frac.ofInt 0) <;>
              by_cases h1 : Frac.bgt x ⟨cap.n, cap.d⟩ <;>
                simp [h0, h1]
    | num x =>
        simp only [valNum?]
        by_cases h0 : Frac.beq x (Frac.ofInt 0) <;>
          by_cases h1 : Frac.bgt x ⟨cap.n, cap.d⟩ <;>
            simp [h0, h1]
    | bool b =>
        simp only [valNum?]
        by_cases h0 : Frac.beq (Frac.ofInt (if b then 1 else 0)) (Frac.ofInt 0) <;>
          by_cases h1 : Frac.bgt (Frac.ofInt (if b then 1 else 0)) ⟨cap.n, cap.d⟩ <;>
            simp [h0, h1]

/-- Closed witness for `check_cpm_capping_spec`: instantiates it on a non-CPM
row and on the scenario-D row. -/
theorem check_cpm_capping_spec_witness :
    check_cpm_capping [("Kpi Type", Val.str "CPC")] ⟨5, 1⟩ = (false, "") ∧
    (check_cpm_capping [("Kpi Type", Val.str "CPM"), ("Kpi Value", Val.num ⟨15, 2⟩)] ⟨5, 1⟩).1 =
      cpmValueBad (Row.getCell [("Kpi Type", Val.str "CPM"),
        ("Kpi Value", Val.num ⟨15, 2⟩)] "Kpi Value" Val.na) ⟨5, 1⟩ :=
  ⟨(check_cpm_capping_spec [("Kpi Type", Val.str "CPC")] ⟨5, 1⟩).1 (by decide),
   (check_cpm_capping_spec [("Kpi Type", Val.str "CPM"),
     ("Kpi Value", Val.num ⟨15, 2⟩)] ⟨5, 1⟩).2.1 (by decide)⟩

/-! ## Anomaly selection engine (agents/anomaly_det_runner_agent.py)

A per-row check predicate takes the entity row (the two context tables are
already closed over) and returns `(is_abnormal, description)`, or `none` when
the Python function raises — the runner catches the exception and skips the
check for that row.  Batched (LLM-backed) checks take the whole table plus the
naming convention and return a name-to-description mapping, or `none` when
they raise — the runner falls back to the empty mapping. -/

/-- A per-row check predicate; `none` models a raised exception. -/
abbrev CheckFn := Row → Option (Bool × String)

/-- A batched check; `none` models a raised exception. -/
abbrev BatchFn := List Row → String → Option (List (String × String))

/-- Python dict lookup on a name-to-description mapping. -/
def lookupName (m : List (String × String)) (name : String) : Option String :=
  (m.find? (fun p => p.1 == name)).map Prod.snd

/-- `row.get('Name', '')` as the string key used for batched-check lookup; a
non-string cell can never equal a string dict key, hence `none`. -/
def rowNameKey (r : Row) : Option String :=
  match Row.getCell r "Name" (Val.str "") with
  | Val.str s => some s
  | _ => none

/-- Descriptions of the per-row checks that returned `is_abnormal = True` for
this row, in check order; raising checks are skipped. -/
def rowFailDescs (fns : List CheckFn) (r : Row) : List String :=
  fns.filterMap (fun f =>
    match f r with
    | some (true, d) => some d
    | _ => none)

/-- Whether some per-row check returned `is_abnormal = True` for this row. -/
def rowPerCheckAbnormal (fns : List CheckFn) (r : Row) : Bool :=
  fns.any (fun f =>
    match f r with
    | some (true, _) => true
    | _ => false)

/-- One pass of the runner's inner row loop: per-row check results, then the
two batched mappings merged in by entity name.  Returns
`(row_is_abnormal, row_anomalies)`. -/
def liRowAnomalies (fns : List CheckFn) (naming setup : List (String × String)) (r : Row) :
    Bool × List String :=
  let descs := rowFailDescs fns r
  let hit1 := (rowNameKey r).bind (lookupName naming)
  let hit2 := (rowNameKey r).bind (lookupName setup)
  (rowPerCheckAbnormal fns r || hit1.isSome || hit2.isSome,
   descs ++ hit1.toList ++ hit2.toList)

/-- The three concrete line-item per-row predicates the runner wires in
(`check_li_safeguards`, `check_li_inventory_consistency`,
`check_li_markup_consistency`); their pandas bodies are opaque here. -/
structure LiCheckLib where
  safeguards : CheckFn
  inventory : CheckFn
  markup : Frac → CheckFn

/-- `run_selective_li_detection`'s check-function selection: safeguards,
inventory, then markup (the latter only when `expected_markup` was supplied),
in source order. -/
def liSelectedFns (check_types : List String) (expected_markup : Option Frac)
    (lib : LiCheckLib) : List CheckFn :=
  (if check_types.contains "safeguards" then [lib.safeguards] else []) ++
  (if check_types.contains "inventory" then [lib.inventory] else []) ++
  (match expected_markup with
   | some m => if check_types.contains "markup" then [lib.markup m] else []
   | none => [])

/-- Default partner naming convention used when none is supplied. -/
def LI_DEFAULT_CONVENTION : String := "Country/Language - Targeting/Publisher - Device (Opt)"

/-- The naming-convention batch mapping the runner computes: only when
`"naming"` was requested and a convention supplied; a raising batch check
degrades to the empty mapping. -/
def liNamingMap (df : List Row) (check_types : List String)
    (naming_convention : Option String) (namingBatch : BatchFn) : List (String × String) :=
  if check_types.contains "naming" then
    match naming_convention with
    | some c => (namingBatch df c).getD []
    | none => []
  else []

/-- The naming-vs-setup batch mapping: when `"naming_setup"` was requested,
with the default convention substituted for a missing one. -/
def liSetupMap (df : List Row) (check_types : List String)
    (naming_convention : Option String) (namingSetupBatch : BatchFn) : List (String × String) :=
  if check_types.contains "naming_setup" then
    (namingSetupBatch df (naming_convention.getD LI_DEFAULT_CONVENTION)).getD []
  else []

/-- The runner's row transform: assign `is_abnormal` and
`anomalies_description` columns, then (after filtering) drop `is_abnormal`. -/
def annotateRow (r : Row) (ab : Bool) (descs : List String) : Row :=
  setCol (setCol r "is_abnormal" (Val.bool ab)) "anomalies_description"
    (Val.str (String.intercalate "; " descs))

/-- Shallow embedding of `run_selective_li_detection`: builds the selected
check functions and batch mappings, annotates every row, keeps the abnormal
rows in order, and drops the temporary `is_abnormal` column. -/
def run_selective_li_detection (df : List Row) (check_types : List String)
    (naming_convention : Option String) (expected_markup : Option Frac)
    (lib : LiCheckLib) (namingBatch namingSetupBatch : BatchFn) : List Row :=
  let fns := liSelectedFns check_types expected_markup lib
  let naming := liNamingMap df check_types naming_convention namingBatch
  let setup := liSetupMap df check_types naming_convention namingSetupBatch
  let annotated := df.map (fun r =>
    let res := liRowAnomalies fns naming setup r
    (annotateRow r res.1 res.2, res.1))
  (annotated.filter (fun p => p.2)).map (fun p => dropCol p.1 "is_abnormal")

/-- The four concrete insertion-order per-row predicates the runner wires in. -/
structure IoCheckLib where
  naming_kpi : CheckFn
  kpi_objective : CheckFn
  kpi_optimization : CheckFn
  cpm_capping : Frac → CheckFn

/-- `run_selective_io_detection`'s check-function selection, in source order. -/
def ioSelectedFns (check_types : List String) (default_cpm_cap : Frac)
    (lib : IoCheckLib) : List CheckFn :=
  (if check_types.contains "naming_kpi" then [lib.naming_kpi] else []) ++
  (if check_types.contains "kpi_objective" then [lib.kpi_objective] else []) ++
  (if check_types.contains "kpi_optimization" then [lib.kpi_optimization] else []) ++
  (if check_types.contains "cpm_capping" then [lib.cpm_capping default_cpm_cap] else [])

/-- Shallow embedding of `run_selective_io_detection`.  The IO naming batch
check is commented out in the source, so its mapping is always empty. -/
def run_selective_io_detection (df : List Row) (check_types : List String)
    (default_cpm_cap : Frac) (lib : IoCheckLib) : List Row :=
  let fns := ioSelectedFns check_types default_cpm_cap lib
  let annotated := df.map (fun r =>
    let res := liRowAnomalies fns [] [] r
    (annotateRow r res.1 res.2, res.1))
  (annotated.filter (fun p => p.2)).map (fun p => dropCol p.1 "is_abnormal")

/-- The three concrete campaign per-row predicates. -/
structure CampaignCheckLib where
  goal : CheckFn
  kpi : CheckFn
  frequency : CheckFn

/-- The tool's `check_function_map` lookup for one campaign check identifier. -/
def campaignFnFor (lib : CampaignCheckLib) (k : String) : Option CheckFn :=
  if k == "goal" then some lib.goal
  else if k == "kpi" then some lib.kpi
  else if k == "frequency" then some lib.frequency
  else none

/-- `detect_campaign_anomalies`'s selection
`[check_function_map[ct] for ct in check_types if ct in check_function_map]`. -/
def campaignSelectedFns (check_types : List String) (lib : CampaignCheckLib) : List CheckFn :=
  check_types.filterMap (campaignFnFor lib)

/-- Shallow embedding of `run_selective_campaign_detection`, which receives the
already-selected check functions; its row loop has no batched-check merge. -/
def run_selective_campaign_detection (df : List Row) (fns : List CheckFn) : List Row :=
  let annotated := df.map (fun r =>
    (annotateRow r (rowPerCheckAbnormal fns r) (rowFailDescs fns r),
     rowPerCheckAbnormal fns r))
  (annotated.filter (fun p => p.2)).map (fun p => dropCol p.1 "is_abnormal")

/-- The spec's row-flagging condition, written from its words: at least one
selected per-row check returns `is_abnormal = true` for the row, or a batched
naming check maps the row's name to an anomaly. -/
def liRowFlagged (fns : List CheckFn) (naming setup : List (String × String)) (r : Row) : Bool :=
  fns.any (fun f =>
    match f r with
    | some (true, _) => true
    | _ => false) ||
  (match rowNameKey r with
   | some n => (lookupName naming n).isSome || (lookupName setup n).isSome
   | none => false)

/-- The output row the spec describes: the original row plus the joined
description column. -/
def liOutRow (fns : List CheckFn) (naming setup : List (String × String)) (r : Row) : Row :=
  r ++ [("anomalies_description",
    Val.str (String.intercalate "; " (liRowAnomalies fns naming setup r).2))]

theorem liRowAnomalies_fst (fns : List CheckFn) (naming setup : List (String × String))
    (r : Row) : (liRowAnomalies fns naming setup r).1 = liRowFlagged fns naming setup r := by
  unfold liRowAnomalies liRowFlagged rowPerCheckAbnormal
  cases h : rowNameKey r <;> simp [h, Option.bind, Bool.or_assoc]

theorem setCol_of_not_has (r : Row) (k : String) (v : Val) (h : hasCol r k = false) :
    setCol r k v = r ++ [(k, v)] := by
  unfold setCol
  rw [h]
  simp

theorem hasCol_append_single (r : Row) (p : String × Val) (k : String) :
    hasCol (r ++ [p]) k = (hasCol r k || (p.1 == k)) := by
  simp [hasCol]

theorem dropCol_append (r s : Row) (k : String) :
    dropCol (r ++ s) k = dropCol r k ++ dropCol s k := by
  simp [dropCol]

theorem dropCol_of_not_has (r : Row) (k : String) (h : hasCol r k = false) :
    dropCol r k = r := by
  unfold dropCol
  rw [List.filter_eq_self]
  intro p hp
  unfold hasCol at h
  rw [List.any_eq_false] at h
  simp [h p hp]

theorem annotate_drop (r : Row) (ab : Bool) (descs : List String)
    (h1 : hasCol r "is_abnormal" = false) (h2 : hasCol r "anomalies_description" = false) :
    dropCol (annotateRow r ab descs) "is_abnormal" =
      r ++ [("anomalies_description", Val.str (String.intercalate "; " descs))] := by
  unfold annotateRow
  rw [setCol_of_not_has _ _ _ h1]
  rw [setCol_of_not_has _ _ _ (by rw [hasCol_append_single, h2]; simp)]
  rw [List.append_assoc, dropCol_append, dropCol_of_not_has _ _ h1]
  simp [dropCol]

/-- The row loop of the selective runners, reorganised as filter-then-map:
shared by the line-item, insertion-order and campaign equations. -/
theorem loopRows_eq (fns : List CheckFn) (naming setup : List (String × String)) :
    ∀ (l : List Row),
      (∀ r ∈ l, hasCol r "is_abnormal" = false ∧ hasCol r "anomalies_description" = false) →
      ((l.map (fun r =>
          let res := liRowAnomalies fns naming setup r
          (annotateRow r res.1 res.2, res.1))).filter (fun p => p.2)).map
        (fun p => dropCol p.1 "is_abnormal") =
      (l.filter (liRowFlagged fns naming setup)).map (liOutRow fns naming setup) := by
  intro l
  induction l with
  | nil => intro _; rfl
  | cons r t ih =>
      intro h
      have hr := h r (List.mem_cons_self r t)
      have ht : ∀ x ∈ t, hasCol x "is_abnormal" = false ∧
          hasCol x "anomalies_description" = false := fun x hx => h x (List.mem_cons_of_mem r hx)
      have hab : (liRowAnomalies fns naming setup r).1 = liRowFlagged fns naming setup r :=
        liRowAnomalies_fst fns naming setup r
      by_cases hf : liRowFlagged fns naming setup r = true
      · simp only [List.map_cons, List.filter_cons, hab, hf, if_true, List.map_cons]
        rw [ih ht, annotate_drop r _ _ hr.1 hr.2]
        rfl
      · have hf' : liRowFlagged fns naming setup r = false := by
          cases hflag : liRowFlagged fns naming setup r
          · rfl
          · exact absurd hflag hf
        simp only [List.map_cons, List.filter_cons, hab, hf']
        simpa using ih ht

/-- The selective line-item runner as filter-then-map, given that the input
table has neither of the two derived columns. -/
theorem run_li_eq (df : List Row) (cts : List String) (conv : Option String)
    (markup : Option Frac) (lib : LiCheckLib) (nb nsb : BatchFn)
    (h : ∀ r ∈ df, hasCol r "is_abnormal" = false ∧ hasCol r "anomalies_description" = false) :
    run_selective_li_detection df cts conv markup lib nb nsb =
      (df.filter (liRowFlagged (liSelectedFns cts markup lib) (liNamingMap df cts conv nb)
          (liSetupMap df cts conv nsb))).map
        (liOutRow (liSelectedFns cts markup lib) (liNamingMap df cts conv nb)
          (liSetupMap df cts conv nsb)) := by
  unfold run_selective_li_detection
  exact loopRows_eq _ _ _ df h

/-- The selective insertion-order runner as filter-then-map. -/
theorem run_io_eq (df : List Row) (cts : List String) (cap : Frac) (lib : IoCheckLib)
    (h : ∀ r ∈ df, hasCol r "is_abnormal" = false ∧ hasCol r "anomalies_description" = false) :
    run_selective_io_detection df cts cap lib =
      (df.filter (liRowFlagged (ioSelectedFns cts cap lib) [] [])).map
        (liOutRow (ioSelectedFns cts cap lib) [] []) := by
  unfold run_selective_io_detection
  exact loopRows_eq _ _ _ df h

/-- C4: a row of the entity table appears in the selective-detection result iff
at least one selected per-row check flags it or a batched naming check maps its
name to an anomaly; the output rows are the original rows (original columns, in
the original order) extended with the `anomalies_description` column. -/
theorem anomaly_filter_correctness (df : List Row) (cts : List String) (conv : Option String)
    (markup : Option Frac) (lib : LiCheckLib) (nb nsb : BatchFn)
    (h : ∀ r ∈ df, hasCol r "is_abnormal" = false ∧ hasCol r "anomalies_description" = false) :
    run_selective_li_detection df cts conv markup lib nb nsb =
      (df.filter (liRowFlagged (liSelectedFns cts markup lib) (liNamingMap df cts conv nb)
          (liSetupMap df cts conv nsb))).map
        (liOutRow (liSelectedFns cts markup lib) (liNamingMap df cts conv nb)
          (liSetupMap df cts conv nsb)) ∧
    ∀ r ∈ df,
      (liRowFlagged (liSelectedFns cts markup lib) (liNamingMap df cts conv nb)
          (liSetupMap df cts conv nsb) r = true ↔
        liOutRow (liSelectedFns cts markup lib) (liNamingMap df cts conv nb)
          (liSetupMap df cts conv nsb) r ∈
          run_selective_li_detection df cts conv markup lib nb nsb) := by
  have heq := run_li_eq df cts conv markup lib nb nsb h
  refine ⟨heq, ?_⟩
  intro r hmem
  rw [heq]
  constructor
  · intro hflag
    exact List.mem_map_of_mem _ (List.mem_filter.mpr ⟨hmem, hflag⟩)
  · intro hout
    rcases List.mem_map.mp hout with ⟨r', hr', hout'⟩
    have hlen : r'.length = r.length := by
      have := congrArg List.length hout'
      simpa [liOutRow] using this
    have : r' = r := by
      have h2 := hout'
      unfold liOutRow at h2
      exact (List.append_inj_left h2 hlen)
    subst this
    exact (List.mem_filter.mp hr').2

/-- Closed witness for `anomaly_filter_correctness`: a two-row table where the
safeguards check flags exactly one row. -/
theorem anomaly_filter_correctness_witness :
    run_selective_li_detection
        [[("Name", Val.str "li-1")], [("Name", Val.str "li-2")]] ["safeguards"] none none
        ⟨fun r => some (Row.getCell r "Name" (Val.str "") == Val.str "li-1", "flag"),
         fun _ => some (false, ""), fun _ _ => some (false, "")⟩
        (fun _ _ => some []) (fun _ _ => some []) =
      [[("Name", Val.str "li-1"), ("anomalies_description", Val.str "flag")]] := by
  have h := anomaly_filter_correctness
    [[("Name", Val.str "li-1")], [("Name", Val.str "li-2")]] ["safeguards"] none none
    ⟨fun r => some (Row.getCell r "Name" (Val.str "") == Val.str "li-1", "flag"),
     fun _ => some (false, ""), fun _ _ => some (false, "")⟩
    (fun _ _ => some []) (fun _ _ => some []) (by decide)
  rw [h.1]
  decide

/-- The number of selected checks failing for a row: per-row checks returning
`is_abnormal = true` plus batched hits on the row's name. -/
def countFailingChecks (fns : List CheckFn) (naming setup : List (String × String))
    (r : Row) : Nat :=
  (fns.filter (fun f =>
    match f r with
    | some (true, _) => true
    | _ => false)).length +
  ((rowNameKey r).bind (lookupName naming)).toList.length +
  ((rowNameKey r).bind (lookupName setup)).toList.length

theorem length_filterMap_isSome (g : α → Option β) (l : List α) :
    (l.filterMap g).length = (l.filter (fun a => (g a).isSome)).length := by
  induction l with
  | nil => rfl
  | cons a t ih => cases hg : g a <;> simp [List.filterMap_cons, hg, ih, List.filter_cons]

theorem rowFailDescs_length (fns : List CheckFn) (r : Row) :
    (rowFailDescs fns r).length =
      (fns.filter (fun f =>
        match f r with
        | some (true, _) => true
        | _ => false)).length := by
  unfold rowFailDescs
  rw [length_filterMap_isSome]
  congr 1
  apply List.filter_congr
  intro f _
  cases hf : f r with
  | none => simp
  | some p =>
      cases p with
      | mk b d => cases b <;> simp

theorem hitDesc_mem (m : List (String × String)) (o : Option String) (d : String)
    (h : d ∈ o.bind (lookupName m)) : ∃ p ∈ m, p.2 = d := by
  rw [Option.mem_def, Option.bind_eq_some] at h
  rcases h with ⟨n, _, hlook⟩
  unfold lookupName at hlook
  rw [Option.map_eq_some'] at hlook
  rcases hlook with ⟨p, hfind, hpd⟩
  exact ⟨p, List.mem_of_find?_eq_some hfind, hpd⟩

theorem getCell_append_last (r : Row) (k : String) (v : Val) (h : hasCol r k = false) :
    Row.getCell (r ++ [(k, v)]) k v = v ∧ Row.getCell (r ++ [(k, v)]) k Val.na = v := by
  have hfind : ∀ d, Row.getCell (r ++ [(k, v)]) k d = v := by
    intro d
    unfold Row.getCell
    rw [List.find?_append]
    have : r.find? (fun p => p.1 == k) = none := by
      rw [List.find?_eq_none]
      intro p hp
      unfold hasCol at h
      rw [List.any_eq_false] at h
      simp [h p hp]
    rw [this]
    simp
  exact ⟨hfind v, hfind Val.na⟩

/-- C5: for a row on which exactly `k` selected checks fail, the
`anomalies_description` cell is the `"; "`-join of exactly `k` fragments — one
per failing check, in check-evaluation order (per-row checks first, then the
naming and naming-vs-setup batch hits) — and each fragment is non-empty
whenever the failing checks' descriptions are non-empty. -/
theorem description_aggregation (fns : List CheckFn) (naming setup : List (String × String))
    (r : Row)
    (hcol : hasCol r "anomalies_description" = false)
    (hnonempty : ∀ f ∈ fns, ∀ d : String, f r = some (true, d) → d ≠ "")
    (hbatch : ∀ m ∈ [naming, setup], ∀ p ∈ m, p.2 ≠ "") :
    Row.getCell (liOutRow fns naming setup r) "anomalies_description" Val.na =
      Val.str (String.intercalate "; " ((liRowAnomalies fns naming setup r).2)) ∧
    (liRowAnomalies fns naming setup r).2 =
      rowFailDescs fns r ++ ((rowNameKey r).bind (lookupName naming)).toList ++
        ((rowNameKey r).bind (lookupName setup)).toList ∧
    (liRowAnomalies fns naming setup r).2.length = countFailingChecks fns naming setup r ∧
    ∀ d ∈ (liRowAnomalies fns naming setup r).2, d ≠ "" := by
  refine ⟨?_, ?_, ?_, ?_⟩
  · unfold liOutRow
    exact (getCell_append_last r _ _ hcol).2
  · rfl
  · unfold liRowAnomalies countFailingChecks
    simp only [List.length_append]
    rw [rowFailDescs_length]
  · intro d hd
    unfold liRowAnomalies at hd
    simp only [List.mem_append] at hd
    rcases hd with (hd | hd) | hd
    · unfold rowFailDescs at hd
      rcases List.mem_filterMap.mp hd with ⟨f, hf, hfd⟩
      cases hfr : f r with
      | none => rw [hfr] at hfd; cases hfd
      | some p =>
          cases p with
          | mk b d' =>
              cases b with
              | false => rw [hfr] at hfd; cases hfd
              | true =>
                  rw [hfr] at hfd
                  cases hfd
                  exact hnonempty f hf d hfr
    · rcases hitDesc_mem naming (rowNameKey r) d (Option.mem_toList.mp hd) with ⟨p, hp, hpd⟩
      exact hpd ▸ hbatch naming (by simp) p hp
    · rcases hitDesc_mem setup (rowNameKey r) d (Option.mem_toList.mp hd) with ⟨p, hp, hpd⟩
      exact hpd ▸ hbatch setup (by simp) p hp

/-- Closed witness for `description_aggregation`: one failing per-row check and
one naming-batch hit give two `"; "`-joined fragments. -/
theorem description_aggregation_witness :
    Row.getCell (liOutRow [fun _ => some (true, "A"), fun _ => some (false, "")]
        [("li-1", "B")] [] [("Name", Val.str "li-1")]) "anomalies_description" Val.na =
      Val.str "A; B" ∧
    (liRowAnomalies [fun _ => some (true, "A"), fun _ => some (false, "")]
        [("li-1", "B")] [] [("Name", Val.str "li-1")]).2.length = 2 := by
  have hne : ∀ f ∈ ([fun _ => some (true, "A"), fun _ => some (false, "")] : List CheckFn),
      ∀ d : String, f [("Name", Val.str "li-1")] = some (true, d) → d ≠ "" := by
    intro f hf d hd
    rcases List.mem_cons.mp hf with h1 | h2
    · subst h1
      simp only [Option.some.injEq, Prod.mk.injEq] at hd
      rw [← hd.2]
      decide
    · rcases List.mem_cons.mp h2 with h3 | h4
      · subst h3
        simp at hd
      · cases h4
  have h := description_aggregation [fun _ => some (true, "A"), fun _ => some (false, "")]
      [("li-1", "B")] [] [("Name", Val.str "li-1")] (by decide) hne (by decide)
  exact ⟨h.1.trans (by decide), h.2.2.1.trans (by decide)⟩

/-- The check identifiers the line-item runner consults. -/
def LI_KNOWN_CHECKS : List String := ["safeguards", "inventory", "markup", "naming", "naming_setup"]

/-- The check identifiers the insertion-order runner consults. -/
def IO_KNOWN_CHECKS : List String := ["naming_kpi", "kpi_objective", "kpi_optimization", "cpm_capping"]

/-- The check identifiers the campaign tool's `check_function_map` knows. -/
def CAMPAIGN_KNOWN_CHECKS : List String := ["goal", "kpi", "frequency"]

theorem contains_filter_of_mem (l : List String) (p : String → Bool) (x : String)
    (hx : p x = true) : (l.filter p).contains x = l.contains x := by
  induction l with
  | nil => rfl
  | cons a t ih =>
      by_cases ha : p a = true
      · simp [List.filter_cons, ha, List.contains_cons, ih, hx]
      · have ha' : p a = false := by
          cases hpa : p a
          · rfl
          · exact absurd hpa ha
        have hne : ¬(x = a) := fun he => ha (he ▸ hx)
        simp [List.filter_cons, ha', List.contains_cons, ih, hx, hne]

theorem filterMap_filter_of_none (g : String → Option α) (p : String → Bool)
    (hg : ∀ x, p x = false → g x = none) :
    ∀ l : List String, (l.filter p).filterMap g = l.filterMap g := by
  intro l
  induction l with
  | nil => rfl
  | cons a t ih =>
      by_cases ha : p a
      · simp [List.filter_cons, ha, List.filterMap_cons, ih]
      · have ha' : p a = false := by
          cases hpa : p a
          · rfl
          · exact absurd hpa ha
        simp [List.filter_cons, ha', List.filterMap_cons, hg a ha', ih]

/-- C9: check identifiers that the runners do not recognise are silently
ignored — restricting a requested list to the recognised identifiers yields the
identical detection result for line items, insertion orders and campaigns (and
the runs are total functions, so no error is raised either way). -/
theorem unknown_check_ids_ignored (df : List Row) (cts : List String) (conv : Option String)
    (markup : Option Frac) (lib : LiCheckLib) (nb nsb : BatchFn) (cap : Frac)
    (iolib : IoCheckLib) (clib : CampaignCheckLib) :
    run_selective_li_detection df (cts.filter (LI_KNOWN_CHECKS.contains ·)) conv markup lib nb nsb =
      run_selective_li_detection df cts conv markup lib nb nsb ∧
    run_selective_io_detection df (cts.filter (IO_KNOWN_CHECKS.contains ·)) cap iolib =
      run_selective_io_detection df cts cap iolib ∧
    campaignSelectedFns (cts.filter (CAMPAIGN_KNOWN_CHECKS.contains ·)) clib =
      campaignSelectedFns cts clib ∧
    run_selective_campaign_detection df
        (campaignSelectedFns (cts.filter (CAMPAIGN_KNOWN_CHECKS.contains ·)) clib) =
      run_selective_campaign_detection df (campaignSelectedFns cts clib) := by
  have hli : ∀ x ∈ LI_KNOWN_CHECKS,
      (cts.filter (LI_KNOWN_CHECKS.contains ·)).contains x = cts.contains x := by
    intro x hx
    exact contains_filter_of_mem cts _ x (by
      cases hc : LI_KNOWN_CHECKS.contains x
      · simp at hc
        exact absurd hx hc
      · rfl)
  have hio : ∀ x ∈ IO_KNOWN_CHECKS,
      (cts.filter (IO_KNOWN_CHECKS.contains ·)).contains x = cts.contains x := by
    intro x hx
    exact contains_filter_of_mem cts _ x (by
      cases hc : IO_KNOWN_CHECKS.contains x
      · simp at hc
        exact absurd hx hc
      · rfl)
  have hcamp : campaignSelectedFns (cts.filter (CAMPAIGN_KNOWN_CHECKS.contains ·)) clib =
      campaignSelectedFns cts clib := by
    unfold campaignSelectedFns
    apply filterMap_filter_of_none
    intro x hx
    unfold campaignFnFor
    have hmem : x ∉ CAMPAIGN_KNOWN_CHECKS := by
      intro hm
      have hc : CAMPAIGN_KNOWN_CHECKS.contains x = true := by simp [hm]
      rw [hc] at hx
      cases hx
    simp only [CAMPAIGN_KNOWN_CHECKS, List.mem_cons, List.not_mem_nil, or_false] at hmem
    push_neg at hmem
    rw [if_neg (by simp only [beq_iff_eq]; exact hmem.1),
      if_neg (by simp only [beq_iff_eq]; exact hmem.2.1),
      if_neg (by simp only [beq_iff_eq]; exact hmem.2.2)]
  refine ⟨?_, ?_, hcamp, by rw [hcamp]⟩
  · unfold run_selective_li_detection liSelectedFns liNamingMap liSetupMap
    rw [hli "safeguards" (by decide), hli "inventory" (by decide), hli "markup" (by decide),
      hli "naming" (by decide), hli "naming_setup" (by decide)]
  · unfold run_selective_io_detection ioSelectedFns
    rw [hio "naming_kpi" (by decide), hio "kpi_objective" (by decide),
      hio "kpi_optimization" (by decide), hio "cpm_capping" (by decide)]

/-! ## `detect_line_item_anomalies` (agents/anomaly_det_runner_agent.py)

The tool around the selective runner: check-type defaulting, display-column
projection, and the JSON payload with `count` and a 50-item `anomalies` cap.
The module-level dataframes are passed explicitly. -/

/-- The fixed display columns the tool projects before returning. -/
def LI_DISPLAY_COLS : List String := ["Name", "Line Item Id", "dv360_link", "anomalies_description"]

/-- Projection of one row onto named columns: `none` when a column is missing
(pandas raises `KeyError`, caught by the tool's outer handler). -/
def selectCols : List String → Row → Option Row
  | [], _ => some []
  | c :: cs, r =>
      match r.find? (fun p => p.1 == c), selectCols cs r with
      | some p, some rest => some ((c, p.2) :: rest)
      | _, _ => none

/-- Pandas `df[[cols]]` over the whole table. -/
def selectColsAll (cols : List String) : List Row → Option (List Row)
  | [] => some []
  | r :: t =>
      match selectCols cols r, selectColsAll cols t with
      | some r', some t' => some (r' :: t')
      | _, _ => none

/-- The tool's check-type defaulting when none were requested: safeguards,
inventory and naming-setup always, markup and naming only with their
parameters. -/
def liDefaultCheckTypes (naming_convention : Option String)
    (expected_markup : Option Frac) : List String :=
  ["safeguards", "inventory", "naming_setup"] ++
  (if expected_markup.isSome then ["markup"] else []) ++
  (if naming_convention.isSome then ["naming"] else [])

/-- The requested check types after the tool's defaulting. -/
def liEffectiveCheckTypes (check_types : List String) (naming_convention : Option String)
    (expected_markup : Option Frac) : List String :=
  if check_types.isEmpty then liDefaultCheckTypes naming_convention expected_markup
  else check_types

/-- The tool's JSON payload. -/
structure LiToolResponse where
  status : String
  message : Option String
  checks_run : List String
  count : Nat
  anomalies : List Row
deriving Repr, DecidableEq

/-- The tool's outcome: a JSON payload, or the error JSON produced by the
outer exception handler. -/
inductive LiToolResult where
  | ok (resp : LiToolResponse)
  | err (msg : String)
deriving Repr, DecidableEq

/-- Shallow embedding of `detect_line_item_anomalies`: runs the selective
detection, and on a non-empty result projects the display columns, reports
`count = len(result)` and returns only `result.head(50)` as `anomalies`. -/
def detect_line_item_anomalies (df : List Row) (check_types : List String)
    (naming_convention : Option String) (expected_markup : Option Frac)
    (lib : LiCheckLib) (namingBatch namingSetupBatch : BatchFn) : LiToolResult :=
  let cts := liEffectiveCheckTypes check_types naming_convention expected_markup
  let result := run_selective_li_detection df cts naming_convention expected_markup lib
    namingBatch namingSetupBatch
  if result.isEmpty then
    .ok { status := "success",
          message := some ("No line item anomalies detected for checks: " ++
            String.intercalate ", " cts),
          checks_run := cts, count := 0, anomalies := [] }
  else
    match selectColsAll LI_DISPLAY_COLS result with
    | some projected =>
        .ok { status := "success", message := none, checks_run := cts,
              count := projected.length, anomalies := projected.take 50 }
    | none => .err "Error detecting line item anomalies"

theorem selectColsAll_length (cols : List String) :
    ∀ (l l' : List Row), selectColsAll cols l = some l' → l'.length = l.length := by
  intro l
  induction l with
  | nil =>
      intro l' h
      unfold selectColsAll at h
      cases h
      rfl
  | cons r t ih =>
      intro l' h
      unfold selectColsAll at h
      cases hr : selectCols cols r with
      | none => rw [hr] at h; cases h
      | some r' =>
          cases ht : selectColsAll cols t with
          | none => rw [hr, ht] at h; cases h
          | some t' =>
              rw [hr, ht] at h
              cases h
              simp [ih t' ht]

/-- C10: when the line-item tool finds anomalous rows, its payload's
`anomalies` array is the first 50 projected anomalous rows (so at most 50),
while `count` equals the total number of anomalous line items found — the two
disagree exactly when more than 50 were found. -/
theorem li_tool_count_vs_returned (df : List Row) (check_types : List String)
    (conv : Option String) (markup : Option Frac) (lib : LiCheckLib) (nb nsb : BatchFn)
    (projected : List Row)
    (hproj : selectColsAll LI_DISPLAY_COLS (run_selective_li_detection df
        (liEffectiveCheckTypes check_types conv markup) conv markup lib nb nsb) = some projected)
    (hne : (run_selective_li_detection df
        (liEffectiveCheckTypes check_types conv markup) conv markup lib nb nsb).isEmpty = false) :
    detect_line_item_anomalies df check_types conv markup lib nb nsb =
      .ok
        { status := "success",
          message := none,
          checks_run := liEffectiveCheckTypes check_types conv markup,
          count := (run_selective_li_detection df
            (liEffectiveCheckTypes check_types conv markup) conv markup lib nb nsb).length,
          anomalies := projected.take 50 } ∧
    (projected.take 50).length ≤ 50 ∧
    (projected.take 50).length =
      min 50 (run_selective_li_detection df
        (liEffectiveCheckTypes check_types conv markup) conv markup lib nb nsb).length := by
  have hlen := selectColsAll_length LI_DISPLAY_COLS _ projected hproj
  refine ⟨?_, ?_, ?_⟩
  · unfold detect_line_item_anomalies
    simp only [hne, Bool.false_eq_true, if_false, hproj, hlen]
  · exact List.length_take_le 50 projected
  · rw [List.length_take, hlen]

/-- Closed witness for `li_tool_count_vs_returned`: 51 identical flagged rows
give `count = 51` but only 50 returned records. -/
theorem li_tool_count_vs_returned_witness :
    (detect_line_item_anomalies
        (List.replicate 51 [("Name", Val.str "li"), ("Line Item Id", Val.num ⟨7, 1⟩),
          ("dv360_link", Val.str "url")])
        ["safeguards"] none none
        ⟨fun _ => some (true, "flag"), fun _ => some (false, ""), fun _ _ => some (false, "")⟩
        (fun _ _ => some []) (fun _ _ => some []) =
      LiToolResult.ok
        { status := "success",
          message := none,
          checks_run := ["safeguards"],
          count := 51,
          anomalies := List.replicate 50 [("Name", Val.str "li"),
            ("Line Item Id", Val.num ⟨7, 1⟩), ("dv360_link", Val.str "url"),
            ("anomalies_description", Val.str "flag")] }) := by
  have h := li_tool_count_vs_returned
    (List.replicate 51 [("Name", Val.str "li"), ("Line Item Id", Val.num ⟨7, 1⟩),
      ("dv360_link", Val.str "url")])
    ["safeguards"] none none
    ⟨fun _ => some (true, "flag"), fun _ => some (false, ""), fun _ _ => some (false, "")⟩
    (fun _ _ => some []) (fun _ _ => some [])
    (List.replicate 51 [("Name", Val.str "li"), ("Line Item Id", Val.num ⟨7, 1⟩),
      ("dv360_link", Val.str "url"), ("anomalies_description", Val.str "flag")])
    (by decide) (by decide)
  rw [h.1]
  decide

/-! ## Result normalizer (graph_system/nodes/summary_result.py)

DataFrames here are rectangular tables (column names plus value rows).  The
GCS upload, the pandas `describe()` statistics block and the pandas
`to_string` rendering are boundary calls, passed in as function parameters. -/

/-- An execution-result table: column names and value rows. -/
structure Df where
  cols : List String
  rows : List (List Val)
deriving Repr, DecidableEq

/-- Pandas `df.empty`: true when either axis has length 0. -/
def dfEmpty (df : Df) : Bool := df.rows.isEmpty || df.cols.isEmpty

/-- Cell threshold for GCS upload (rows × columns); 0 in the source. -/
def CELL_THRESHOLD_FOR_GCS : Nat := 0

/-- `_should_upload_to_gcs`. -/
def should_upload_to_gcs (df : Df) : Bool :=
  decide (df.rows.length * df.cols.length ≥ CELL_THRESHOLD_FOR_GCS)

/-- `df.head(10).iloc[:, :10]`. -/
def truncate10 (df : Df) : Df :=
  ⟨df.cols.take 10, (df.rows.take 10).map (fun r => r.take 10)⟩

/-- The row-truncation indicator. -/
def moreRowsMsg (n : Nat) : String := "... +" ++ toString n ++ " more rows"

/-- The column-truncation indicator. -/
def moreColsMsg (n : Nat) : String := "... +" ++ toString n ++ " more columns"

/-- The `truncation_info` list built by `_format_dataframe_for_display`. -/
def truncationInfo (df : Df) : List String :=
  (if df.rows.length > 10 then [moreRowsMsg (df.rows.length - 10)] else []) ++
  (if df.cols.length > 10 then [moreColsMsg (df.cols.length - 10)] else [])

/-- Shallow embedding of `_format_dataframe_for_display`; `render` stands for
pandas `to_string(index=False)` applied to the truncated table. -/
def format_dataframe_for_display (render : Df → String) (df : Df) : String :=
  if dfEmpty df then "*(Empty DataFrame)*"
  else
    let base := render (truncate10 df)
    let info := truncationInfo df
    let body := if info.isEmpty then base else base ++ "\n" ++ String.intercalate " " info
    "```\n" ++ body ++ "\n```"

theorem string_toList_append (s t : String) : (s ++ t).toList = s.toList ++ t.toList := by
  cases s
  cases t
  rfl

theorem moreRowsMsg_ne_moreColsMsg (a b : Nat) : moreRowsMsg a ≠ moreColsMsg b := by
  intro h
  have h1 := congrArg (fun s => s.toList.reverse.take 4) h
  simp only [moreRowsMsg, moreColsMsg, string_toList_append, List.reverse_append] at h1
  rw [List.take_append_of_le_length (by decide),
    List.take_append_of_le_length (by decide)] at h1
  have h2 : (['s', 'w', 'o', 'r'] : List Char) = ['s', 'n', 'm', 'u'] := by
    have e1 : (" more rows".toList.reverse.take 4) = ['s', 'w', 'o', 'r'] := by decide
    have e2 : (" more columns".toList.reverse.take 4) = ['s', 'n', 'm', 'u'] := by decide
    rw [← e1, ← e2]
    exact h1
  cases h2

/-- Table used by the truncation counterexample: 11 columns, zero rows. -/
def zeroRowWideDf : Df := ⟨(List.range 11).map (fun i => "c" ++ toString i), []⟩

/-- C6 counterexample: a table with 0 rows and 11 columns is `df.empty`, so the
preview is the fixed empty marker and carries no "+1 more columns" suffix even
though C = 11 > 10 — refuting the claim's iff for every table. -/
theorem preview_truncation_counterexample :
    zeroRowWideDf.cols.length = 11 ∧
    format_dataframe_for_display (fun _ => "") zeroRowWideDf = "*(Empty DataFrame)*" ∧
    strIncludes (format_dataframe_for_display (fun _ => "") zeroRowWideDf) "more columns" =
      false := by
  refine ⟨by decide, by decide, by decide⟩

/-- C6 (amended to non-empty tables): for every table with at least one row and
one column, the preview grid is capped at 10×10, the "+N more rows" suffix is
present iff R > 10 with N = R − 10, the "+N more columns" suffix is present iff
C > 10 with N = C − 10, and the rendered string is the truncated rendering plus
exactly those suffixes. -/
theorem preview_truncation_law (render : Df → String) (df : Df)
    (hr : df.rows ≠ []) (hc : df.cols ≠ []) :
    (truncate10 df).rows.length ≤ 10 ∧
    (truncate10 df).cols.length ≤ 10 ∧
    (∀ r ∈ (truncate10 df).rows, r.length ≤ 10) ∧
    (moreRowsMsg (df.rows.length - 10) ∈ truncationInfo df ↔ 10 < df.rows.length) ∧
    (moreColsMsg (df.cols.length - 10) ∈ truncationInfo df ↔ 10 < df.cols.length) ∧
    format_dataframe_for_display render df =
      "```\n" ++ (if (truncationInfo df).isEmpty then render (truncate10 df)
        else render (truncate10 df) ++ "\n" ++ String.intercalate " " (truncationInfo df)) ++
      "\n```" := by
  refine ⟨?_, ?_, ?_, ?_, ?_, ?_⟩
  · simp [truncate10]
  · simp [truncate10]
  · intro r hr'
    simp only [truncate10, List.mem_map] at hr'
    rcases hr' with ⟨r', _, hr'⟩
    rw [← hr']
    exact List.length_take_le 10 r'
  · unfold truncationInfo
    by_cases h : 10 < df.rows.length
    · simp [h]
    · have h' : ¬ df.rows.length > 10 := h
      simp only [gt_iff_lt, h', if_false, List.nil_append]
      constructor
      · intro hmem
        by_cases hcgt : 10 < df.cols.length
        · rw [if_pos hcgt] at hmem
          rcases List.mem_singleton.mp hmem with heq
          exact absurd heq (moreRowsMsg_ne_moreColsMsg _ _)
        · rw [if_neg hcgt] at hmem
          cases hmem
      · intro hlt
        exact hlt.elim
  · unfold truncationInfo
    by_cases h : 10 < df.cols.length
    · simp [h]
    · have h' : ¬ df.cols.length > 10 := h
      simp only [gt_iff_lt, h', if_false, List.append_nil]
      constructor
      · intro hmem
        by_cases hrgt : 10 < df.rows.length
        · rw [if_pos hrgt] at hmem
          rcases List.mem_singleton.mp hmem with heq
          exact absurd heq.symm (moreRowsMsg_ne_moreColsMsg _ _)
        · rw [if_neg hrgt] at hmem
          cases hmem
      · intro hlt
        exact hlt.elim
  · unfold format_dataframe_for_display
    have hemp : dfEmpty df = false := by
      unfold dfEmpty
      cases hrr : df.rows with
      | nil => exact absurd hrr hr
      | cons a t =>
          cases hcc : df.cols with
          | nil => exact absurd hcc hc
          | cons b u => simp
    rw [hemp]
    simp

/-- Closed witness for `preview_truncation_law`: a 12×11 table gets a 10×10
preview with both suffixes. -/
theorem preview_truncation_law_witness :
    (truncate10 ⟨(List.range 11).map (fun i => "c" ++ toString i),
      List.replicate 12 (List.replicate 11 Val.na)⟩).rows.length ≤ 10 ∧
    (moreRowsMsg 2 ∈ truncationInfo ⟨(List.range 11).map (fun i => "c" ++ toString i),
      List.replicate 12 (List.replicate 11 Val.na)⟩ ↔
      10 < (List.replicate 12 (List.replicate 11 Val.na) : List (List Val)).length) := by
  have h := preview_truncation_law (fun _ => "")
    ⟨(List.range 11).map (fun i => "c" ++ toString i),
      List.replicate 12 (List.replicate 11 Val.na)⟩ (by decide) (by decide)
  exact ⟨h.1, by simpa using h.2.2.2.1⟩

/-- Python `s.startswith(pre)`. -/
def pyStartsWith (s pre : String) : Bool :=
  pre.toList.isPrefixOf s.toList

/-- Split a character list at the first occurrence of a (non-empty) separator,
returning the parts before and after it. -/
def breakOn (sep : List Char) : List Char → Option (List Char × List Char)
  | [] => none
  | c :: t =>
      if sep.isPrefixOf (c :: t) && !sep.isEmpty then some ([], (c :: t).drop sep.length)
      else
        match breakOn sep t with
        | some p => some (c :: p.1, p.2)
        | none => none

/-- Python `s.split(sep, 1)`. -/
def splitFirst (s sep : String) : List String :=
  match breakOn sep.toList s.toList with
  | some p => [String.mk p.1, String.mk p.2]
  | none => [s]

/-- Python `s.replace(pat, rep)` (all occurrences, left to right). -/
def replaceAllChars (pat rep : List Char) (l : List Char) : List Char :=
  match l with
  | [] => []
  | c :: t =>
      if h : pat.isPrefixOf (c :: t) = true ∧ pat ≠ [] then
        rep ++ replaceAllChars pat rep ((c :: t).drop pat.length)
      else c :: replaceAllChars pat rep t
termination_by l.length
decreasing_by
  · cases hp : pat with
    | nil => exact absurd hp h.2
    | cons x xs =>
        simp only [List.length_drop, List.length_cons, hp]
        omega
  · simp only [List.length_cons]
    omega

/-- Python `s.replace(pat, rep)` on strings. -/
def pyReplace (s pat rep : String) : String :=
  String.mk (replaceAllChars pat.toList rep.toList s.toList)

/-- Python `s[:n] + ('...' if len(s) > n else '')`. -/
def pyTruncate (s : String) (bound : Nat) : String :=
  if s.length > bound then String.mk (s.toList.take bound) ++ "..." else s

/-- `df[c].iloc[i]`. -/
def Df.cellAt (df : Df) (c : String) (i : Nat) : Val :=
  match df.cols.findIdx? (fun x => x == c), df.rows.get? i with
  | some j, some r => (r.get? j).getD Val.na
  | _, _ => Val.na

/-- `df['error'].iloc[0] if len(df) > 0 else "Unknown error"`, rendered as the
text Python interpolates into the message. -/
def firstErrorMsg (df : Df) : String :=
  if 0 < df.rows.length then valText (Df.cellAt df "error" 0) else "Unknown error"

/-- The normalizer's per-table presentation record; Python returns dicts whose
key sets differ per branch, so branch-specific fields are optional here. -/
structure ProcessedResult where
  type : String
  status : String
  message : String
  download_links : List (String × String)
  label : Option String := none
  display_data : Option String := none
  error_details : Option String := none
  rows_count : Nat := 0
  columns_count : Nat := 0
  cell_count : Nat := 0
  columns : List String := []
  sample_row : Row := []
  stats_summary : Option String := none
  columns_info : Option String := none
  upload_error : Option String := none
  warning_message : Option String := none
deriving Repr, DecidableEq

/-- Shallow embedding of `ResultProcessor._handle_dataframe_result`.
`upload` stands for `upload_to_gcs_with_fallback` (returns a URL, or an
error/warning message marked with a leading "❌"/"⚠️"), `statsOf` for the
pandas `describe()` summary block, and `render` for `to_string`. -/
def handle_dataframe_result (upload : Df → String) (statsOf : Df → String)
    (render : Df → String) (df : Df) (label : String) : ProcessedResult :=
  if df.cols.contains "error" && df.cols.length == 1 then
    { type := "error", status := "error",
      message := "❌ **Code Execution Failed After Retries**\n\n" ++
        pyTruncate (firstErrorMsg df) 500,
      download_links := [],
      display_data := none,
      error_details := some (firstErrorMsg df) }
  else if dfEmpty df then
    { type := "dataframe", status := "empty",
      message := "❌ **" ++ label ++ "** data is empty.",
      download_links := [],
      display_data := some "*(Empty DataFrame)*" }
  else
    let cell_count := df.rows.length * df.cols.length
    let sample_row := df.cols.zip (df.rows.headD [])
    let columns_info := "📋 **Columns:** " ++ String.intercalate ", " (df.cols.take 6) ++
      (if df.cols.length > 6 then " (+" ++ toString (df.cols.length - 6) ++ " more)" else "")
    let display_data := format_dataframe_for_display render df
    let base_msg := "✅ **" ++ label ++ "** processed successfully (" ++
      toString df.rows.length ++ " rows, " ++ toString df.cols.length ++ " columns, " ++
      toString cell_count ++ " cells)"
    if should_upload_to_gcs df then
      let download_url := upload df
      if pyStartsWith download_url "❌" then
        { type := "dataframe", status := "partial_success", label := some label,
          rows_count := df.rows.length, columns_count := df.cols.length,
          cell_count := cell_count, columns := df.cols, sample_row := sample_row,
          stats_summary := some (statsOf df), columns_info := some columns_info,
          download_links := [], upload_error := some download_url,
          display_data := some display_data,
          message := base_msg ++ "\n" ++ download_url }
      else
        let cleaned : String × String :=
          if pyStartsWith download_url "⚠️" then
            match splitFirst download_url ": " with
            | [a, b] => ("\n⚠️ " ++ (pyReplace a "⚠️" "").trim, b)
            | _ => ("", download_url)
          else ("", download_url)
        { type := "dataframe", status := "success", label := some label,
          rows_count := df.rows.length, columns_count := df.cols.length,
          cell_count := cell_count, columns := df.cols, sample_row := sample_row,
          stats_summary := some (statsOf df), columns_info := some columns_info,
          download_links := [(label, cleaned.2)],
          display_data := some display_data,
          warning_message := some cleaned.1,
          message := base_msg ++ cleaned.1 }
    else
      { type := "dataframe", status := "success", label := some label,
        rows_count := df.rows.length, columns_count := df.cols.length,
        cell_count := cell_count, columns := df.cols, sample_row := sample_row,
        columns_info := some columns_info,
        download_links := [],
        display_data := some display_data,
        message := "✅ **" ++ label ++ "** (" ++ toString df.rows.length ++ " rows, " ++
          toString df.cols.length ++ " columns, " ++ toString cell_count ++ " cells)" }

/-- C7 counterexample: a table with the single column `error` and zero rows is
an empty table, yet normalizing it yields `status = "error"`, not `"empty"` —
the error-marker branch takes precedence, refuting the claim's first half as
universally stated. -/
theorem normalizer_empty_error_marker_counterexample :
    dfEmpty ⟨["error"], []⟩ = true ∧
    (handle_dataframe_result (fun _ => "") (fun _ => "") (fun _ => "")
      ⟨["error"], []⟩ "Query_Result").status = "error" ∧
    ¬ (handle_dataframe_result (fun _ => "") (fun _ => "") (fun _ => "")
      ⟨["error"], []⟩ "Query_Result").status = "empty" := by
  refine ⟨by decide, by decide, by decide⟩

/-- C7 (amended): a table whose column set is exactly `["error"]` normalizes to
`status = "error"` with no download link regardless of its row count, and an
empty table whose column set is not exactly `["error"]` normalizes to
`status = "empty"` with empty download links. -/
theorem normalizer_empty_and_error_status (upload statsOf render : Df → String)
    (df : Df) (label : String) :
    (df.cols = ["error"] →
      (handle_dataframe_result upload statsOf render df label).status = "error" ∧
      (handle_dataframe_result upload statsOf render df label).download_links = []) ∧
    (dfEmpty df = true → df.cols ≠ ["error"] →
      (handle_dataframe_result upload statsOf render df label).status = "empty" ∧
      (handle_dataframe_result upload statsOf render df label).download_links = []) := by
  constructor
  · intro hcols
    unfold handle_dataframe_result
    rw [hcols]
    exact ⟨rfl, rfl⟩
  · intro hemp hne
    have hcond : (df.cols.contains "error" && df.cols.length == 1) = false := by
      cases hcc : df.cols with
      | nil => rfl
      | cons a t =>
          cases t with
          | nil =>
              have ha : ¬ (a = "error") := by
                intro haeq
                exact hne (by rw [hcc, haeq])
              have ha' : ¬ ("error" = a) := fun he => ha he.symm
              simp [List.contains_cons, ha']
          | cons b u => simp
    unfold handle_dataframe_result
    rw [hcond, hemp]
    exact ⟨rfl, rfl⟩

/-- Closed witness for `normalizer_empty_and_error_status`: a 3-row error
marker normalizes to an error, and an empty two-column table to `empty`. -/
theorem normalizer_empty_and_error_status_witness :
    (handle_dataframe_result (fun _ => "") (fun _ => "") (fun _ => "")
      ⟨["error"], [[Val.str "boom"], [Val.str "x"], [Val.str "y"]]⟩ "Query_Result").status =
      "error" ∧
    (handle_dataframe_result (fun _ => "") (fun _ => "") (fun _ => "")
      ⟨["a", "b"], []⟩ "Query_Result").status = "empty" := by
  have h1 := (normalizer_empty_and_error_status (fun _ => "") (fun _ => "") (fun _ => "")
    ⟨["error"], [[Val.str "boom"], [Val.str "x"], [Val.str "y"]]⟩ "Query_Result").1 (by decide)
  have h2 := (normalizer_empty_and_error_status (fun _ => "") (fun _ => "") (fun _ => "")
    ⟨["a", "b"], []⟩ "Query_Result").2 (by decide) (by decide)
  exact ⟨h1.1, h2.1⟩

/-! ## Code generation / execution retry loop
(graph_system/routes.py, graph_system/nodes/exec_code_node.py,
agents/tools/exec_code_tool.py, agents/code_generator_agent.py)

The generated code itself and the LLM are boundary behaviour: a run is driven
by the sequence of raw LLM outputs (`gen`) and the sequence of outcomes of
executing each attempt (`ExecEvent`).  The state carries the loop-relevant
`SystemState` fields; message bookkeeping is omitted. -/

/-- What `main(...)` can hand back (or the tool's own text reply). -/
inductive ExecResult where
  | table (df : Df)
  | tables (l : List Df)
  | named (l : List (String × Df))
  | text (s : String)
deriving Repr, DecidableEq

/-- The outcome of one execution attempt of the generated code. -/
inductive ExecEvent where
  | ok (r : ExecResult)
  | noMain
  | fileNotFound
  | raised (tb : String)
deriving Repr, DecidableEq

/-- The fixed message `exec_code_tool` uses for `FileNotFoundError`. -/
def FILE_NOT_FOUND_MSG : String := "Some error when reading the data. I can retry if you want."

/-- The single-cell error-marker table the tool builds on failure. -/
def errorDf (msg : String) : Df := ⟨["error"], [[Val.str msg]]⟩

/-- Shallow embedding of `exec_code_tool`'s outcome classification: success
passes the value through, a missing `main` returns a plain error string, a
`FileNotFoundError` and any other exception both return an error-marker
DataFrame (differing only in message text). -/
def exec_code_tool : ExecEvent → ExecResult
  | .ok r => r
  | .noMain => .text "Error: No function named 'main' found."
  | .fileNotFound => .table (errorDf FILE_NOT_FOUND_MSG)
  | .raised tb => .table (errorDf ("Execution Error:\n" ++ tb ++ " I can retry if you want."))

/-- The loop-relevant `SystemState` fields. -/
structure GState where
  code : String
  execution_error : Option String
  retry_count : Nat
  max_retries : Nat
  result : Option ExecResult
deriving Repr, DecidableEq

/-- `exec_code_node`'s error sniffing: a DataFrame result with an `error`
column is an execution error, whose message is the first `error` cell. -/
def detectError (r : ExecResult) : Option String :=
  match r with
  | .table df => if df.cols.contains "error" then some (firstErrorMsg df) else none
  | _ => none

/-- Python truthiness of the `execution_error` field. -/
def pyTruthy (o : Option String) : Bool :=
  match o with
  | none => false
  | some s => !(s == "")

/-- Shallow embedding of `exec_code_node`: runs the tool, sniffs the error
marker, and increments `retry_count` exactly when an error was detected. -/
def exec_code_node (st : GState) (ev : ExecEvent) : GState :=
  if st.code == "" then
    { st with execution_error := some "No code generated" }
  else
    let result := exec_code_tool ev
    let execution_error := detectError result
    { st with
      result := some result,
      execution_error := execution_error,
      retry_count := if pyTruthy execution_error then st.retry_count + 1 else st.retry_count }

/-- The two targets of the conditional edge after `exec_code`. -/
inductive Route where
  | code_generator
  | capture_result
deriving Repr, DecidableEq

/-- Shallow embedding of `route_after_exec_code`. -/
def route_after_exec_code (st : GState) : Route :=
  if pyTruthy st.execution_error && decide (st.retry_count < st.max_retries) then
    Route.code_generator
  else Route.capture_result

/-- `code_generator_agent`'s fence stripping of the raw LLM output. -/
def strip_code_fences (content : String) : String :=
  match breakOn "```python".toList content.toList with
  | some p =>
      match breakOn "```".toList p.2 with
      | some q => (String.mk q.1).trim
      | none => content
  | none => content

/-- Shallow embedding of `code_generator_agent`'s state update: store the
stripped code and clear `execution_error` for the new attempt.  The prompt
construction and the LLM call are boundary behaviour (`llmOutput`). -/
def code_generator_agent (st : GState) (llmOutput : String) : GState :=
  { st with code := strip_code_fences llmOutput, execution_error := none }

/-- The generate→execute loop as wired in `initializer.py`
(`code_generator → exec_code → route_after_exec_code`), driven by the LLM
outputs `gen` and execution outcomes `ev` from attempt index `i` on.  `fuel`
bounds the unrolling (LangGraph's recursion limit plays the same role);
returns the final state, the number of `code_generator` invocations, and
whether the loop exited through `capture_result` (rather than exhausting
fuel). -/
def runLoop (gen : Nat → String) (ev : Nat → ExecEvent) :
    Nat → Nat → GState → GState × Nat × Bool
  | 0, _, st => (st, 0, false)
  | fuel + 1, i, st =>
      let st1 := code_generator_agent st (gen i)
      let st2 := exec_code_node st1 (ev i)
      match route_after_exec_code st2 with
      | Route.capture_result => (st2, 1, true)
      | Route.code_generator =>
          let rest := runLoop gen ev fuel (i + 1) st2
          (rest.1, rest.2.1 + 1, rest.2.2)

/-- Whether executing an attempt with this outcome trips the node's error
detection. -/
def evFails (e : ExecEvent) : Bool := pyTruthy (detectError (exec_code_tool e))

/-- Failed attempts among `n` consecutive attempts starting at index `i`. -/
def countFailsFrom (ev : Nat → ExecEvent) (i : Nat) : Nat → Nat
  | 0 => 0
  | n + 1 => (if evFails (ev i) then 1 else 0) + countFailsFrom ev (i + 1) n

theorem detectError_errorDf (msg : String) :
    detectError (ExecResult.table (errorDf msg)) = some msg := rfl

theorem raised_msg_ne_fnf (tb : String) :
    ("Execution Error:\n" ++ tb ++ " I can retry if you want.") ≠ FILE_NOT_FOUND_MSG := by
  intro h
  have h1 := congrArg (fun s => s.toList.take 1) h
  simp only [string_toList_append] at h1
  rw [List.take_append_of_le_length (by simp), List.take_append_of_le_length (by decide)] at h1
  have e1 : ("Execution Error:\n".toList.take 1) = ['E'] := by decide
  have e2 : (FILE_NOT_FOUND_MSG.toList.take 1) = ['S'] := by decide
  rw [e1, e2] at h1
  cases h1

theorem runLoop_go (gen : Nat → String) (ev : Nat → ExecEvent) (m : Nat)
    (hgen : ∀ i, strip_code_fences (gen i) ≠ "") :
    ∀ fuel i st, st.max_retries = m → st.retry_count < m → m - st.retry_count ≤ fuel →
      (runLoop gen ev fuel i st).2.2 = true ∧
      1 ≤ (runLoop gen ev fuel i st).2.1 ∧
      (runLoop gen ev fuel i st).2.1 ≤ m - st.retry_count ∧
      (runLoop gen ev fuel i st).1.retry_count =
        st.retry_count + countFailsFrom ev i (runLoop gen ev fuel i st).2.1 ∧
      (runLoop gen ev fuel i st).1.retry_count ≤ m ∧
      (runLoop gen ev fuel i st).1.max_retries = m := by
  intro fuel
  induction fuel with
  | zero =>
      intro i st _ hrc hfuel
      exfalso
      omega
  | succ fuel ih =>
      intro i st hmax hrc hfuel
      have hcode : (strip_code_fences (gen i) == "") = false := by
        cases hsc : strip_code_fences (gen i) == ""
        · rfl
        · exact absurd (eq_of_beq hsc) (hgen i)
      have hst2 : exec_code_node (code_generator_agent st (gen i)) (ev i) =
          { code := strip_code_fences (gen i),
            execution_error := detectError (exec_code_tool (ev i)),
            retry_count := if evFails (ev i) then st.retry_count + 1 else st.retry_count,
            max_retries := st.max_retries,
            result := some (exec_code_tool (ev i)) } := by
        unfold code_generator_agent exec_code_node
        simp [hcode, evFails]
      have hunf : runLoop gen ev (fuel + 1) i st =
          (match route_after_exec_code (exec_code_node (code_generator_agent st (gen i)) (ev i))
            with
           | Route.capture_result =>
              (exec_code_node (code_generator_agent st (gen i)) (ev i), 1, true)
           | Route.code_generator =>
              let rest := runLoop gen ev fuel (i + 1)
                (exec_code_node (code_generator_agent st (gen i)) (ev i))
              (rest.1, rest.2.1 + 1, rest.2.2)) := rfl
      cases hE : evFails (ev i) with
      | false =>
          have hst2' : exec_code_node (code_generator_agent st (gen i)) (ev i) =
              { code := strip_code_fences (gen i),
                execution_error := detectError (exec_code_tool (ev i)),
                retry_count := st.retry_count,
                max_retries := st.max_retries,
                result := some (exec_code_tool (ev i)) } := by
            rw [hst2]
            simp [hE]
          have hpt : pyTruthy (detectError (exec_code_tool (ev i))) = false := hE
          have hroute : route_after_exec_code
              (exec_code_node (code_generator_agent st (gen i)) (ev i)) =
              Route.capture_result := by
            rw [hst2']
            unfold route_after_exec_code
            simp [hpt]
          rw [hunf, hroute, hst2']
          simp only []
          refine ⟨by trivial, by omega, by omega, ?_, by omega, by simpa using hmax⟩
          show st.retry_count = st.retry_count + countFailsFrom ev i 1
          simp [countFailsFrom, hE]
      | true =>
          have hst2' : exec_code_node (code_generator_agent st (gen i)) (ev i) =
              { code := strip_code_fences (gen i),
                execution_error := detectError (exec_code_tool (ev i)),
                retry_count := st.retry_count + 1,
                max_retries := st.max_retries,
                result := some (exec_code_tool (ev i)) } := by
            rw [hst2]
            simp [hE]
          have hpt : pyTruthy (detectError (exec_code_tool (ev i))) = true := hE
          by_cases hlt : st.retry_count + 1 < m
          · have hroute : route_after_exec_code
                (exec_code_node (code_generator_agent st (gen i)) (ev i)) =
                Route.code_generator := by
              rw [hst2']
              unfold route_after_exec_code
              simp [hpt, hmax, hlt]
            rw [hunf, hroute, hst2']
            simp only []
            have hih := ih (i + 1)
              { code := strip_code_fences (gen i),
                execution_error := detectError (exec_code_tool (ev i)),
                retry_count := st.retry_count + 1,
                max_retries := st.max_retries,
                result := some (exec_code_tool (ev i)) }
              hmax hlt (by show m - (st.retry_count + 1) ≤ fuel; omega)
            refine ⟨hih.1, by omega, ?_, ?_, hih.2.2.2.2.1, hih.2.2.2.2.2⟩
            · have h3 := hih.2.2.1
              simp only at h3
              omega
            · have h4 := hih.2.2.2.1
              simp only at h4
              have hcf : countFailsFrom ev i
                  ((runLoop gen ev fuel (i + 1)
                    { code := strip_code_fences (gen i),
                      execution_error := detectError (exec_code_tool (ev i)),
                      retry_count := st.retry_count + 1,
                      max_retries := st.max_retries,
                      result := some (exec_code_tool (ev i)) }).2.1 + 1) =
                  1 + countFailsFrom ev (i + 1)
                    ((runLoop gen ev fuel (i + 1)
                      { code := strip_code_fences (gen i),
                        execution_error := detectError (exec_code_tool (ev i)),
                        retry_count := st.retry_count + 1,
                        max_retries := st.max_retries,
                        result := some (exec_code_tool (ev i)) }).2.1) := by
                simp [countFailsFrom, hE]
              rw [hcf]
              omega
          · have hroute : route_after_exec_code
                (exec_code_node (code_generator_agent st (gen i)) (ev i)) =
                Route.capture_result := by
              rw [hst2']
              unfold route_after_exec_code
              simp [hpt, hmax, hlt]
            rw [hunf, hroute, hst2']
            simp only []
            refine ⟨by trivial, by omega, by omega, ?_, by omega, by simpa using hmax⟩
            show st.retry_count + 1 = st.retry_count + countFailsFrom ev i 1
            simp [countFailsFrom, hE]

/-- C3: starting a fresh analysis turn (retry_count 0, the default
max_retries ≥ 1) with every generated body non-empty, the generate→execute
loop always exits for any fuel ≥ max_retries: the generation adapter is
invoked at most max_retries times — in particular at most max_retries + 1 —
and after the loop the final retry_count equals the number of failed execution
attempts, bounded by max_retries. -/
theorem retry_ceiling (gen : Nat → String) (ev : Nat → ExecEvent) (m fuel : Nat)
    (hm : 1 ≤ m) (hfuel : m ≤ fuel) (hgen : ∀ i, strip_code_fences (gen i) ≠ "") :
    (runLoop gen ev fuel 0 ⟨"", none, 0, m, none⟩).2.2 = true ∧
    (runLoop gen ev fuel 0 ⟨"", none, 0, m, none⟩).2.1 ≤ m ∧
    (runLoop gen ev fuel 0 ⟨"", none, 0, m, none⟩).2.1 ≤ m + 1 ∧
    (runLoop gen ev fuel 0 ⟨"", none, 0, m, none⟩).1.retry_count =
      countFailsFrom ev 0 (runLoop gen ev fuel 0 ⟨"", none, 0, m, none⟩).2.1 ∧
    (runLoop gen ev fuel 0 ⟨"", none, 0, m, none⟩).1.retry_count ≤ m := by
  have h := runLoop_go gen ev m hgen fuel 0 ⟨"", none, 0, m, none⟩ rfl hm
    (by show m - 0 ≤ fuel; omega)
  refine ⟨h.1, ?_, ?_, ?_, h.2.2.2.2.1⟩
  · have h3 := h.2.2.1
    simp only at h3
    omega
  · have h3 := h.2.2.1
    simp only at h3
    omega
  · have h4 := h.2.2.2.1
    simp only at h4
    omega

/-- Closed witness for `retry_ceiling`: two always-failing attempts under
max_retries = 2. -/
theorem retry_ceiling_witness :
    (runLoop (fun _ => "x = 1") (fun _ => ExecEvent.raised "KeyError") 2 0
      ⟨"", none, 0, 2, none⟩).2.2 = true ∧
    (runLoop (fun _ => "x = 1") (fun _ => ExecEvent.raised "KeyError") 2 0
      ⟨"", none, 0, 2, none⟩).2.1 ≤ 2 ∧
    (runLoop (fun _ => "x = 1") (fun _ => ExecEvent.raised "KeyError") 2 0
      ⟨"", none, 0, 2, none⟩).2.1 ≤ 2 + 1 ∧
    (runLoop (fun _ => "x = 1") (fun _ => ExecEvent.raised "KeyError") 2 0
      ⟨"", none, 0, 2, none⟩).1.retry_count =
      countFailsFrom (fun _ => ExecEvent.raised "KeyError") 0
        (runLoop (fun _ => "x = 1") (fun _ => ExecEvent.raised "KeyError") 2 0
          ⟨"", none, 0, 2, none⟩).2.1 ∧
    (runLoop (fun _ => "x = 1") (fun _ => ExecEvent.raised "KeyError") 2 0
      ⟨"", none, 0, 2, none⟩).1.retry_count ≤ 2 :=
  retry_ceiling (fun _ => "x = 1") (fun _ => ExecEvent.raised "KeyError") 2 2
    (by decide) (by decide)
    (fun i => by show strip_code_fences "x = 1" ≠ ""; decide)

/-- C1 (the run the spec's scenario C describes): `max_retries = 2`, fresh
turn, every execution raises `KeyError` — the loop exits after generating only
TWO code bodies (not three: `exec_code_node` increments `retry_count` before
`route_after_exec_code` compares it with `max_retries`), the final
`retry_count` is 2, an execution error is recorded, and the error-marker
result normalizes to `processed_result.status = "error"`. -/
theorem scenario_c_two_code_bodies :
    (runLoop (fun _ => "def main(Line_Items, Campaigns, Insertion_orders):\n    return Line_Items[3]")
      (fun _ => ExecEvent.raised "KeyError: 3") 3 0 ⟨"", none, 0, 2, none⟩).2.1 = 2 ∧
    (runLoop (fun _ => "def main(Line_Items, Campaigns, Insertion_orders):\n    return Line_Items[3]")
      (fun _ => ExecEvent.raised "KeyError: 3") 3 0 ⟨"", none, 0, 2, none⟩).2.2 = true ∧
    (runLoop (fun _ => "def main(Line_Items, Campaigns, Insertion_orders):\n    return Line_Items[3]")
      (fun _ => ExecEvent.raised "KeyError: 3") 3 0 ⟨"", none, 0, 2, none⟩).1.retry_count = 2 ∧
    (runLoop (fun _ => "def main(Line_Items, Campaigns, Insertion_orders):\n    return Line_Items[3]")
      (fun _ => ExecEvent.raised "KeyError: 3") 3 0 ⟨"", none, 0, 2, none⟩).1.execution_error ≠
      none ∧
    (match (runLoop (fun _ => "def main(Line_Items, Campaigns, Insertion_orders):\n    return Line_Items[3]")
      (fun _ => ExecEvent.raised "KeyError: 3") 3 0 ⟨"", none, 0, 2, none⟩).1.result with
     | some (ExecResult.table df) =>
        (handle_dataframe_result (fun _ => "") (fun _ => "") (fun _ => "") df
          "Query_Result").status
     | _ => "") = "error" := by
  refine ⟨by decide, by decide, by decide, by decide, by decide⟩

/-- C2 counterexample: a fresh turn (`retry_count = 0`, `max_retries = 2`)
whose execution step hits `FileNotFoundError`: the node records it as an
ordinary execution error, increments `retry_count` to 1 (a retry is consumed),
and the router sends the turn back to `code_generator` — not to a terminal
failure. -/
theorem file_not_found_counterexample :
    (exec_code_node ⟨"def main(a, b, c):\n    return a", none, 0, 2, none⟩
      ExecEvent.fileNotFound).retry_count = 1 ∧
    (exec_code_node ⟨"def main(a, b, c):\n    return a", none, 0, 2, none⟩
      ExecEvent.fileNotFound).execution_error = some FILE_NOT_FOUND_MSG ∧
    route_after_exec_code (exec_code_node ⟨"def main(a, b, c):\n    return a", none, 0, 2, none⟩
      ExecEvent.fileNotFound) = Route.code_generator := by
  refine ⟨by decide, by decide, by decide⟩

/-- C2 (amended): `FileNotFoundError` during the execution step is wrapped in
the same error-marker table as any other execution failure (with the fixed
message text), so the node consumes a retry and the router re-enters code
generation while `retry_count < max_retries`; it is distinguishable from an
ordinary code-execution error only by its message text, never by error class
or routing. -/
theorem file_not_found_treated_as_exec_error (st : GState) (hcode : st.code ≠ "") :
    (exec_code_node st ExecEvent.fileNotFound).retry_count = st.retry_count + 1 ∧
    (exec_code_node st ExecEvent.fileNotFound).execution_error = some FILE_NOT_FOUND_MSG ∧
    (exec_code_node st ExecEvent.fileNotFound).result =
      some (ExecResult.table (errorDf FILE_NOT_FOUND_MSG)) ∧
    (st.retry_count + 1 < st.max_retries →
      route_after_exec_code (exec_code_node st ExecEvent.fileNotFound) =
        Route.code_generator) ∧
    (∀ tb, (exec_code_node st (ExecEvent.raised tb)).execution_error ≠
      some FILE_NOT_FOUND_MSG) := by
  have hc : (st.code == "") = false := by
    cases h : st.code == ""
    · rfl
    · exact absurd (eq_of_beq h) hcode
  have hd : detectError (exec_code_tool ExecEvent.fileNotFound) = some FILE_NOT_FOUND_MSG := rfl
  have hpt : pyTruthy (some FILE_NOT_FOUND_MSG) = true := by decide
  have hnode : exec_code_node st ExecEvent.fileNotFound =
      { st with
        result := some (ExecResult.table (errorDf FILE_NOT_FOUND_MSG)),
        execution_error := some FILE_NOT_FOUND_MSG,
        retry_count := st.retry_count + 1 } := by
    unfold exec_code_node
    simp only [hc, Bool.false_eq_true, if_false]
    rw [show exec_code_tool ExecEvent.fileNotFound =
      ExecResult.table (errorDf FILE_NOT_FOUND_MSG) from rfl]
    rw [show detectError (ExecResult.table (errorDf FILE_NOT_FOUND_MSG)) =
      some FILE_NOT_FOUND_MSG from rfl]
    rw [hpt]
    simp
  refine ⟨by rw [hnode], by rw [hnode], by rw [hnode], ?_, ?_⟩
  · intro hlt
    rw [hnode]
    unfold route_after_exec_code
    simp [hpt, hlt]
  · intro tb heq
    have hdr : detectError (exec_code_tool (ExecEvent.raised tb)) =
        some ("Execution Error:\n" ++ tb ++ " I can retry if you want.") := rfl
    have hnode' : (exec_code_node st (ExecEvent.raised tb)).execution_error =
        some ("Execution Error:\n" ++ tb ++ " I can retry if you want.") := by
      unfold exec_code_node
      simp [hc, hdr]
    rw [hnode'] at heq
    exact raised_msg_ne_fnf tb (Option.some.inj heq)

/-- Closed witness for `file_not_found_treated_as_exec_error`. -/
theorem file_not_found_treated_as_exec_error_witness :
    (exec_code_node ⟨"def main(a, b, c):\n    return a", none, 0, 2, none⟩
      ExecEvent.fileNotFound).retry_count = 0 + 1 ∧
    (exec_code_node ⟨"def main(a, b, c):\n    return a", none, 0, 2, none⟩
      ExecEvent.fileNotFound).execution_error = some FILE_NOT_FOUND_MSG :=
  ⟨(file_not_found_treated_as_exec_error ⟨"def main(a, b, c):\n    return a", none, 0, 2, none⟩
      (by decide)).1,
   (file_not_found_treated_as_exec_error ⟨"def main(a, b, c):\n    return a", none, 0, 2, none⟩
      (by decide)).2.1⟩

end AdamSetup
